import Mathlib

/-!
Verification of the orthorectification / map-overlay pipeline.

This file gives a shallow embedding of the core of the repository:

* the georeference data model (`GeoGrid`, `RasterBand`, `Bounds`,
  `BandInfo`) used by `georeference_analysis.py`;
* `GeoInfo.get_info` and `SceneAnalyzer.check_alignment` from
  `src/georeference_analysis.py`;
* `BandAligner.align_band_to_reference`, `BandAligner.align_scene`,
  `BandAligner.align_all_scenes` and `BandAligner._find_scenes` from
  `src/band_aligner.py`;
* the per-scene NDVI computation of `src/vegetation-ortho.py`
  (NaN mask plus range assertion) and of
  `src/vegetation-ortho-aligned.py` (zero fill).

Floating-point sample values are embedded as exact rationals (`ℚ`); a
NaN produced by the masking step is embedded as `none : Option ℚ`.
External library calls (rasterio's `reproject` resampling kernel and
`transform_bounds` CRS conversion) are modelled as explicit function
parameters, so every theorem quantifying over them holds for any
behaviour of the external library.
-/

/-- The six affine coefficients of a raster transform, in rasterio's
`Affine(a, b, c, d, e, f)` order: `a` pixel width, `b` row rotation,
`c` origin x, `d` column rotation, `e` pixel height (conventionally
negative), `f` origin y. -/
structure Affine where
  a : ℚ
  b : ℚ
  c : ℚ
  d : ℚ
  e : ℚ
  f : ℚ
deriving DecidableEq

/-- A raster's pixel geometry: CRS (as an opaque EPSG code), affine
transform, and dimensions.  This is the metadata rasterio exposes as
`src.crs`, `src.transform`, `src.width`, `src.height`. -/
structure GeoGrid where
  crs : ℕ
  transform : Affine
  width : ℕ
  height : ℕ
deriving DecidableEq

/-- A single-band raster: its grid plus its sample matrix (flattened,
row-major).  Sample values are embedded as exact rationals. -/
structure RasterBand where
  grid : GeoGrid
  samples : List ℚ
deriving DecidableEq

/-- A bounding box as rasterio's `BoundingBox(left, bottom, right, top)`. -/
structure Bounds where
  left : ℚ
  bottom : ℚ
  right : ℚ
  top : ℚ
deriving DecidableEq

/-- The EPSG code of WGS84, `CRS.from_epsg(4326)` in the source. -/
def wgs84 : ℕ := 4326

/-- `src.bounds` for a grid, as computed by rasterio's
`array_bounds(height, width, transform)`: `west, north = transform * (0, 0)`
and `east, south = transform * (width, height)`. -/
def array_bounds (g : GeoGrid) : Bounds :=
  { left := g.transform.c
    bottom := g.transform.f + g.transform.d * g.width + g.transform.e * g.height
    right := g.transform.c + g.transform.a * g.width + g.transform.b * g.height
    top := g.transform.f }

/-- The dictionary returned by `GeoInfo.get_info` in
`src/georeference_analysis.py` (the `file` key, a display string, is
omitted). -/
structure BandInfo where
  crs : ℕ
  bounds_wgs84 : Bounds
  center_wgs84 : ℚ × ℚ
  shape : ℕ × ℕ
  pixel_size : ℚ × ℚ
deriving DecidableEq

/-- `GeoInfo.get_info` (src/georeference_analysis.py, lines 20-38).
`tb` models rasterio's `transform_bounds(src.crs, CRS.from_epsg(4326), *src.bounds)`
as an arbitrary deterministic function of the source CRS and bounds;
the source calls it only when `src.crs != CRS.from_epsg(4326)`. -/
def get_info (tb : ℕ → Bounds → Bounds) (g : GeoGrid) : BandInfo :=
  let b := if g.crs ≠ wgs84 then tb g.crs (array_bounds g) else array_bounds g
  { crs := g.crs
    bounds_wgs84 := b
    center_wgs84 := ((b.left + b.right) / 2, (b.bottom + b.top) / 2)
    shape := (g.height, g.width)
    pixel_size := (|g.transform.a|, |g.transform.e|) }

/-- `SceneAnalyzer.check_alignment` (src/georeference_analysis.py,
lines 51-68).  `getInfo` models `fun file => GeoInfo(file).get_info()`;
`bands` is the dict's value list in insertion order.  The source
returns `True` for fewer than two bands without opening any file, and
otherwise returns `False` as soon as a band's WGS84 bounds or shape
differ from the first band's (exact comparison, no tolerance). -/
def check_alignment {α : Type} (getInfo : α → BandInfo) (bands : List α) : Bool :=
  if bands.length < 2 then true
  else
    match bands with
    | [] => true
    | ref :: rest =>
      rest.all fun b =>
        !(decide ((getInfo b).bounds_wgs84 ≠ (getInfo ref).bounds_wgs84) ||
          decide ((getInfo b).shape ≠ (getInfo ref).shape))

/-! ### NDVI computation -/

/-- Per-pixel NDVI of `src/vegetation-ortho.py` (src/src copy), lines
65-68: `ndvi = (nir - red) / (nir + red)` followed by
`ndvi[(nir + red) == 0] = np.nan`.  A masked (NaN) pixel is `none`. -/
def ndvi_raw (nir red : List ℚ) : List (Option ℚ) :=
  List.zipWith
    (fun n r => if n + r = 0 then none else some ((n - r) / (n + r)))
    nir red

/-- The finite (non-NaN) values of an NDVI raster. -/
def finiteVals (xs : List (Option ℚ)) : List ℚ :=
  xs.filterMap id

/-- `np.nanmin`: minimum over the finite values, `none` (NaN) when
every value is NaN. -/
def nanmin : List ℚ → Option ℚ
  | [] => none
  | x :: xs =>
    match nanmin xs with
    | none => some x
    | some m => some (min x m)

/-- `np.nanmax`: maximum over the finite values, `none` (NaN) when
every value is NaN. -/
def nanmax : List ℚ → Option ℚ
  | [] => none
  | x :: xs =>
    match nanmax xs with
    | none => some x
    | some m => some (max x m)

/-- The range assertion of `src/vegetation-ortho.py` (src/src copy),
lines 70-71: `assert -1 <= np.nanmin(ndvi) <= 1` and
`assert -1 <= np.nanmax(ndvi) <= 1`.  A comparison against NaN is
false in Python, so the assertion also fails when every pixel is NaN. -/
def ndvi_range_ok (xs : List (Option ℚ)) : Bool :=
  match nanmin (finiteVals xs), nanmax (finiteVals xs) with
  | some mn, some mx =>
    (decide (-1 ≤ mn) && decide (mn ≤ 1)) && (decide (-1 ≤ mx) && decide (mx ≤ 1))
  | _, _ => false

/-- The error raised by the failing NDVI range assertion
("NDVI values out of range"). -/
inductive NdviError where
  | RangeViolation
deriving DecidableEq

/-- An NDVI raster: the grid kept from the red band's profile plus the
computed float band, in which masked pixels are NaN (`none`). -/
structure NdviBand where
  grid : GeoGrid
  samples : List (Option ℚ)
deriving DecidableEq

/-- The per-scene NDVI body of `src/vegetation-ortho.py` (src/src
copy), lines 52-80: load red and NIR, compute the masked index, assert
the range (an `AssertionError` aborts the scene), and keep the red
band's profile for the output.  The source performs no comparison of
the two input grids. -/
def scene_ndvi (red nir : RasterBand) : Except NdviError NdviBand :=
  let vals := ndvi_raw nir.samples red.samples
  if ndvi_range_ok vals then
    Except.ok { grid := red.grid, samples := vals }
  else
    Except.error NdviError.RangeViolation

/-- The NDVI step of `process_aligned_ndvi`
(src/vegetation-ortho-aligned.py, lines 112-115):
`ndvi = (nir - red) / (nir + red)` then
`ndvi = np.where((nir + red) == 0, 0, ndvi)` — the declared fill value
for `a + b == 0` pixels is `0`. -/
def aligned_ndvi (nir red : List ℚ) : List ℚ :=
  List.zipWith
    (fun n r => if n + r = 0 then 0 else (n - r) / (n + r))
    nir red

/-! ### Band alignment (`src/band_aligner.py`) -/

/-- Python dict access `d[key]` / `key in d` for a dict embedded as its
insertion-ordered association list (a Python dict holds each key at
most once, so first match is the match). -/
def dictGet {β : Type} (key : String) : List (String × β) → Option β
  | [] => none
  | p :: rest => if p.1 = key then some p.2 else dictGet key rest

/-- `BandAligner.align_band_to_reference` (src/band_aligner.py, lines
41-73): the output raster is written with the reference file's
profile — `dst_transform=ref_transform`, `dst_crs=ref_crs` and the
reference width and height — so its grid is the reference grid by
construction.  `resample` models rasterio's `reproject(...,
resampling=Resampling.bilinear)` call, which fills the destination
array; the theorems below hold for every behaviour of `resample`. -/
def align_band_to_reference (resample : RasterBand → GeoGrid → List ℚ)
    (band : RasterBand) (refGrid : GeoGrid) : RasterBand :=
  { grid := refGrid, samples := resample band refGrid }

/-- `BandAligner.align_scene` (src/band_aligner.py, lines 75-107): the
scene's band dict in insertion order.  If the reference band is
missing the source prints and returns `None`; otherwise the reference
band is copied as-is (`dst.write(src.read())` with `src.profile`) and
every other band is aligned to the reference grid. -/
def align_scene (resample : RasterBand → GeoGrid → List ℚ)
    (scene_bands : List (String × RasterBand)) (reference_band : String) :
    Option (List (String × RasterBand)) :=
  match dictGet reference_band scene_bands with
  | none => none
  | some refB =>
    some (scene_bands.map fun p =>
      if p.1 = reference_band then p
      else (p.1, align_band_to_reference resample p.2 refB.grid))

/-- `BandAligner.align_all_scenes` (src/band_aligner.py, lines
109-125): iterate the discovered scenes in order; each scene's whole
processing is wrapped in `try/except Exception`, so `alignOne` models
the per-scene body `align_scene(scene_name, reference_band)` together
with any I/O failure it may raise (`Except.error`).  The first
component is the `aligned_scenes` dict (successes only, in order); the
second models the per-scene success/failure report printed at the
scene boundary (`✅ ... aligned successfully` / `❌ Error aligning
scene ...`). -/
def align_all_scenes {σ α ε : Type} (alignOne : String × σ → Except ε α)
    (scenes : List (String × σ)) : List (String × α) × List (String × Bool) :=
  match scenes with
  | [] => ([], [])
  | p :: rest =>
    let done := align_all_scenes alignOne rest
    match alignOne p with
    | Except.ok r => ((p.1, r) :: done.1, (p.1, true) :: done.2)
    | Except.error _ => (done.1, (p.1, false) :: done.2)

/-! ### Scene discovery (`BandAligner._find_scenes`)

File names are embedded as `List Char`; Python's `str.replace` and the
suffix match of `glob("*_SR_B4.TIF")` are given as executable functions
on character lists with Python's semantics. -/

/-- Python `s.replace(old, new)`: replace every non-overlapping
occurrence of `old` in `s`, scanning left to right (no-op when `old`
is empty, which never happens in the source's calls). -/
def replaceAll (old new : List Char) : List Char → List Char
  | [] => []
  | c :: rest =>
    if old ≠ [] ∧ (c :: rest).take old.length = old then
      new ++ replaceAll old new (rest.drop (old.length - 1))
    else
      c :: replaceAll old new rest
termination_by s => s.length
decreasing_by
  · simp only [List.length_drop, List.length_cons]
    omega
  · simp only [List.length_cons]
    omega

/-- The test performed by `glob("*_SR_B4.TIF")` on a file name: the
name ends with the literal suffix (`*` matches any prefix). -/
def strEndsWith (s suffix : List Char) : Bool :=
  decide (s.drop (s.length - suffix.length) = suffix)

/-- The pattern `_SR_B4.TIF` of `self.data_dir.glob("*_SR_B4.TIF")`. -/
def patSRB4 : List Char := "_SR_B4.TIF".toList

/-- The pattern `B4.TIF` replaced in `file.name.replace('B4.TIF', 'B5.TIF')`. -/
def patB4 : List Char := "B4.TIF".toList

/-- The replacement `B5.TIF`. -/
def patB5 : List Char := "B5.TIF".toList

/-- `BandAligner._find_scenes` (src/band_aligner.py, lines 25-39):
`files` is the directory listing.  Every file matching
`*_SR_B4.TIF` starts a scene keyed by the name with `_SR_B4.TIF`
removed, holding `{'B4': file}`; if the corresponding `B5` file
exists in the directory it is added under `'B5'`. -/
def find_scenes (files : List (List Char)) :
    List (List Char × List (String × List Char)) :=
  (files.filter fun f => strEndsWith f patSRB4).map fun f =>
    (replaceAll patSRB4 [] f,
      ("B4", f) ::
        (if files.contains (replaceAll patB4 patB5 f)
         then [("B5", replaceAll patB4 patB5 f)] else []))

/-! ### Concrete fixtures used by the witnesses and counterexamples -/

/-- A 1×1 WGS84 grid with unit pixels at the origin. -/
def gridW : GeoGrid := ⟨4326, ⟨1, 0, 0, 0, -1, 1⟩, 1, 1⟩

/-- The same grid shifted east by `5·10⁻⁷` degrees — less than the
spec's `1e-6` tolerance, but not exactly equal. -/
def gridW2 : GeoGrid := ⟨4326, ⟨1, 0, 1/2000000, 0, -1, 1⟩, 1, 1⟩

/-- A 2×2 grid in a projected CRS (EPSG:32610). -/
def gridU : GeoGrid := ⟨32610, ⟨30, 0, 500000, 0, -30, 4000000⟩, 2, 2⟩

/-- A second, different projected grid (EPSG:32611). -/
def gridU2 : GeoGrid := ⟨32611, ⟨30, 0, 600000, 0, -30, 4100000⟩, 2, 2⟩

/-- The identity model of `transform_bounds`. -/
def tbId : ℕ → Bounds → Bounds := fun _ b => b

/-- A red band with reflectance 100 everywhere on `gridW`. -/
def redGood : RasterBand := ⟨gridW, [100]⟩

/-- A NIR band with reflectance 300 everywhere on `gridW`. -/
def nirGood : RasterBand := ⟨gridW, [300]⟩

/-- A corrupted red band holding a negative reflectance. -/
def redNeg : RasterBand := ⟨gridW, [-2]⟩

/-- A NIR band with reflectance 1 everywhere on `gridW`. -/
def nirOne : RasterBand := ⟨gridW, [1]⟩

/-- A red band on the projected grid `gridU`. -/
def redBand : RasterBand := ⟨gridU, [100]⟩

/-- A NIR band on the different projected grid `gridU2`. -/
def nirBand : RasterBand := ⟨gridU2, [300]⟩

/-- A two-band demo scene mapping, in insertion order. -/
def demoScene : List (String × RasterBand) := [("B4", redGood), ("B5", nirGood)]

/-- A demo directory listing holding one scene's B4 and B5 files. -/
def demoFiles : List (List Char) :=
  ["LC1_SR_B4.TIF".toList, "LC1_SR_B5.TIF".toList]

/-- The band dict discovery is expected to build for `demoFiles`. -/
def demoBands : List (String × List Char) :=
  [("B4", "LC1_SR_B4.TIF".toList), ("B5", "LC1_SR_B5.TIF".toList)]

/-- Modelled from the spec's words, for comparison with the code: a
band counts as aligned when each of its four WGS84 bounds agrees with
the reference within `tol` degrees and its shape matches exactly. -/
def spec_aligned_within_tol (tol : ℚ) (ref other : BandInfo) : Bool :=
  decide (|other.bounds_wgs84.left - ref.bounds_wgs84.left| ≤ tol) &&
  decide (|other.bounds_wgs84.bottom - ref.bounds_wgs84.bottom| ≤ tol) &&
  decide (|other.bounds_wgs84.right - ref.bounds_wgs84.right| ≤ tol) &&
  decide (|other.bounds_wgs84.top - ref.bounds_wgs84.top| ≤ tol) &&
  decide (other.shape = ref.shape)

/-! ### Range lemmas for the NDVI assertion -/

theorem mem_finiteVals {xs : List (Option ℚ)} {v : ℚ} (h : some v ∈ xs) :
    v ∈ finiteVals xs := by
  unfold finiteVals
  exact List.mem_filterMap.mpr ⟨some v, h, rfl⟩

theorem nanmin_le_of_mem {l : List ℚ} {v : ℚ} (h : v ∈ l) :
    ∃ m, nanmin l = some m ∧ m ≤ v := by
  induction l with
  | nil => cases h
  | cons x xs ih =>
    rcases List.mem_cons.mp h with hx | hxs
    · subst hx
      cases hmin : nanmin xs with
      | none => exact ⟨v, by simp [nanmin, hmin], le_refl v⟩
      | some m => exact ⟨min v m, by simp [nanmin, hmin], min_le_left v m⟩
    · obtain ⟨m, hm, hle⟩ := ih hxs
      exact ⟨min x m, by simp [nanmin, hm], le_trans (min_le_right x m) hle⟩

theorem le_nanmax_of_mem {l : List ℚ} {v : ℚ} (h : v ∈ l) :
    ∃ m, nanmax l = some m ∧ v ≤ m := by
  induction l with
  | nil => cases h
  | cons x xs ih =>
    rcases List.mem_cons.mp h with hx | hxs
    · subst hx
      cases hmax : nanmax xs with
      | none => exact ⟨v, by simp [nanmax, hmax], le_refl v⟩
      | some m => exact ⟨max v m, by simp [nanmax, hmax], le_max_left v m⟩
    · obtain ⟨m, hm, hle⟩ := ih hxs
      exact ⟨max x m, by simp [nanmax, hm], le_trans hle (le_max_right x m)⟩

theorem ndvi_range_ok_sound {xs : List (Option ℚ)} (h : ndvi_range_ok xs = true)
    {v : ℚ} (hv : some v ∈ xs) : -1 ≤ v ∧ v ≤ 1 := by
  have hmem : v ∈ finiteVals xs := mem_finiteVals hv
  obtain ⟨mn, hmn, hmnle⟩ := nanmin_le_of_mem hmem
  obtain ⟨mx, hmx, hmxle⟩ := le_nanmax_of_mem hmem
  unfold ndvi_range_ok at h
  rw [hmn, hmx] at h
  simp only [Bool.and_eq_true, decide_eq_true_eq] at h
  exact ⟨le_trans h.1.1 hmnle, le_trans hmxle h.2.2⟩

/-! ### Claim theorems -/

/-- C1: every finite pixel of an NDVI raster actually produced by the
per-scene index computation lies in the closed interval `[-1, 1]`; and
whenever some finite pixel of the computed index lies outside that
interval the computation fails with `RangeViolation` (the failing
range assertion) instead of returning it. -/
theorem scene_ndvi_range_postcondition (red nir : RasterBand) :
    (∀ out, scene_ndvi red nir = Except.ok out →
      ∀ v : ℚ, some v ∈ out.samples → -1 ≤ v ∧ v ≤ 1) ∧
    ((∃ v : ℚ, some v ∈ ndvi_raw nir.samples red.samples ∧ (v < -1 ∨ 1 < v)) →
      scene_ndvi red nir = Except.error NdviError.RangeViolation) := by
  constructor
  · intro out hok v hv
    unfold scene_ndvi at hok
    by_cases h : ndvi_range_ok (ndvi_raw nir.samples red.samples) = true
    · rw [if_pos h] at hok
      injection hok with hout
      subst hout
      exact ndvi_range_ok_sound h hv
    · rw [if_neg h] at hok
      cases hok
  · rintro ⟨v, hv, hout⟩
    have hnc : ¬ ndvi_range_ok (ndvi_raw nir.samples red.samples) = true := by
      intro h
      have hr := ndvi_range_ok_sound h hv
      rcases hout with h1 | h1
      · linarith [hr.1]
      · linarith [hr.2]
    unfold scene_ndvi
    rw [if_neg hnc]

/-- Witness for C1: with red = 100 and NIR = 300 the produced pixel
`1/2` is certified in range; with red = −2 and NIR = 1 the computed
pixel −3 is out of range and the computation fails. -/
theorem scene_ndvi_range_postcondition_witness :
    (-1 ≤ (1 : ℚ)/2 ∧ (1 : ℚ)/2 ≤ 1) ∧
    scene_ndvi redNeg nirOne = Except.error NdviError.RangeViolation :=
  ⟨(scene_ndvi_range_postcondition redGood nirGood).1
      ⟨gridW, [some (1/2)]⟩
      (by norm_num [scene_ndvi, ndvi_raw, ndvi_range_ok, finiteVals, nanmin,
        nanmax, redGood, nirGood])
      (1/2) (by simp),
   (scene_ndvi_range_postcondition redNeg nirOne).2
      ⟨-3, by norm_num [ndvi_raw, redNeg, nirOne], by norm_num⟩⟩

/-- C2: in the aligned pipeline's index computation, every pixel where
`nir + red = 0` receives the declared fill value `0` (not a propagated
NaN), and index rasters computed from all-zero bands are the fill
value everywhere. -/
theorem aligned_ndvi_zero_fill :
    (∀ (nir red : List ℚ) (i : ℕ) (h1 : i < nir.length) (h2 : i < red.length)
        (h3 : i < (aligned_ndvi nir red).length),
        nir[i] + red[i] = 0 → (aligned_ndvi nir red)[i] = 0) ∧
    (∀ n : ℕ,
        aligned_ndvi (List.replicate n 0) (List.replicate n 0) =
          List.replicate n 0) := by
  constructor
  · intro nir red i h1 h2 h3 hz
    simp [aligned_ndvi, List.getElem_zipWith, hz]
  · intro n
    induction n with
    | zero => rfl
    | succ k ih =>
      simp only [List.replicate_succ, aligned_ndvi, List.zipWith_cons_cons] at ih ⊢
      rw [ih]
      norm_num

/-- Witness for C2: a zero-sum pixel receives 0, and 2-pixel all-zero
bands give the all-zero index raster. -/
theorem aligned_ndvi_zero_fill_witness :
    (aligned_ndvi [(0 : ℚ), 3] [0, 1]).get ⟨0, by decide⟩ = 0 ∧
    aligned_ndvi (List.replicate 2 (0 : ℚ)) (List.replicate 2 0) =
      List.replicate 2 0 :=
  ⟨aligned_ndvi_zero_fill.1 [0, 3] [0, 1] 0 (by decide) (by decide) (by decide)
      (by simp),
   aligned_ndvi_zero_fill.2 2⟩

/-- C6 counterexample: the scene NDVI computation happily produces an
index from two bands whose grids differ (different CRS, transform and
origin) — there is no grid precondition and no `GridMismatch` failure
in the source. -/
theorem scene_ndvi_no_grid_check_cex :
    redBand.grid ≠ nirBand.grid ∧
    scene_ndvi redBand nirBand = Except.ok ⟨gridU, [some (1/2)]⟩ := by
  constructor
  · norm_num [redBand, nirBand, gridU, gridU2]
  · norm_num [scene_ndvi, ndvi_raw, ndvi_range_ok, finiteVals, nanmin, nanmax,
      redBand, nirBand]

/-- C6 amended: the scene NDVI computation never inspects the input
grids — replacing either band's grid by anything at all changes
neither success/failure nor the computed samples; the output merely
carries the red band's grid. -/
theorem scene_ndvi_ignores_grids (red nir : RasterBand) (g g2 : GeoGrid) :
    scene_ndvi ⟨g, red.samples⟩ ⟨g2, nir.samples⟩ =
      (scene_ndvi red nir).map fun b => ⟨g, b.samples⟩ := by
  simp only [scene_ndvi]
  by_cases h : ndvi_range_ok (ndvi_raw nir.samples red.samples) = true
  · rw [if_pos h, if_pos h]
    rfl
  · rw [if_neg h, if_neg h]
    rfl

/-- C3 counterexample: two 1×1 WGS84 grids whose bounds differ by only
`5·10⁻⁷` degrees (inside the spec's `1e-6` tolerance) with identical
shape satisfy the spec's tolerance-based alignment predicate, yet the
implementation reports them as NOT aligned — it compares the WGS84
bounds with exact equality, without any tolerance. -/
theorem check_alignment_tolerance_cex :
    spec_aligned_within_tol (1/1000000)
      (get_info tbId gridW) (get_info tbId gridW2) = true ∧
    (get_info tbId gridW2).shape = (get_info tbId gridW).shape ∧
    check_alignment (get_info tbId) [gridW, gridW2] = false := by
  refine ⟨?_, ?_, ?_⟩
  · norm_num [spec_aligned_within_tol, get_info, array_bounds, tbId, gridW,
      gridW2, wgs84, abs_le]
  · norm_num [get_info, gridW, gridW2, wgs84]
  · norm_num [check_alignment, get_info, array_bounds, tbId, gridW, gridW2,
      wgs84]

/-- C3 amended: the verifier reports the bands aligned if and only if
every non-reference band's WGS84 bounds equal the reference band's
bounds EXACTLY and its shape matches exactly; any non-zero bounds
difference — however far below the spec's 1e-6 tolerance — is reported
as misalignment. -/
theorem check_alignment_exact_iff {α : Type} (getInfo : α → BandInfo)
    (a : α) (l : List α) :
    check_alignment getInfo (a :: l) = true ↔
      ∀ b ∈ l, (getInfo b).bounds_wgs84 = (getInfo a).bounds_wgs84 ∧
        (getInfo b).shape = (getInfo a).shape := by
  cases l with
  | nil => simp [check_alignment]
  | cons x xs =>
    unfold check_alignment
    rw [if_neg (by simp [List.length_cons])]
    simp [List.all_eq_true]

/-- Witness for the amended C3: two bands with identical info are
reported aligned. -/
theorem check_alignment_exact_iff_witness :
    check_alignment (get_info tbId) [gridW, gridW] = true :=
  (check_alignment_exact_iff (get_info tbId) gridW [gridW]).mpr
    (by
      intro b hb
      rw [List.mem_singleton] at hb
      subst hb
      exact ⟨rfl, rfl⟩)

/-- C10: with fewer than two bands (no bands, or a single band) the
alignment check returns `true` immediately; the result holds for every
`getInfo` whatsoever, i.e. without inspecting any band file. -/
theorem check_alignment_short {α : Type} (getInfo : α → BandInfo)
    (bands : List α) (h : bands.length < 2) :
    check_alignment getInfo bands = true := by
  unfold check_alignment
  rw [if_pos h]

/-- Witness for C10: the empty mapping and a one-band mapping are both
vacuously aligned. -/
theorem check_alignment_short_witness :
    ([gridW].length < 2 ∧ check_alignment (get_info tbId) [gridW] = true) ∧
    check_alignment (fun g : GeoGrid => get_info tbId g) [] = true :=
  ⟨⟨by decide, check_alignment_short _ [gridW] (by decide)⟩,
   check_alignment_short _ [] (by decide)⟩

/-- C7: when a grid's native CRS is already the requested WGS84, the
reported bounds are the native affine-derived bounds unchanged, for
every possible behaviour `tb` of the CRS conversion — the no-op path
never invokes it; when the CRS differs, the bounds are exactly the
CRS conversion applied to the native bounds. -/
theorem get_info_noop_bounds (tb : ℕ → Bounds → Bounds) (g : GeoGrid) :
    (g.crs = wgs84 → (get_info tb g).bounds_wgs84 = array_bounds g) ∧
    (g.crs ≠ wgs84 → (get_info tb g).bounds_wgs84 = tb g.crs (array_bounds g)) := by
  constructor
  · intro h
    simp [get_info, h]
  · intro h
    simp [get_info, h]

/-- Witness for C7: a WGS84 grid keeps its native bounds; a projected
grid goes through the conversion. -/
theorem get_info_noop_bounds_witness :
    (gridW.crs = wgs84 ∧
      (get_info tbId gridW).bounds_wgs84 = array_bounds gridW) ∧
    (gridU.crs ≠ wgs84 ∧
      (get_info tbId gridU).bounds_wgs84 = tbId gridU.crs (array_bounds gridU)) :=
  ⟨⟨by decide, (get_info_noop_bounds tbId gridW).1 (by decide)⟩,
   ⟨by decide, (get_info_noop_bounds tbId gridU).2 (by decide)⟩⟩

/-- C5: the band produced by aligning to a target grid carries exactly
the target grid, for every behaviour of the resampling kernel (it is
fixed by construction of the output profile, not by verification); and
verifying the result against the target grid therefore always reports
alignment true. -/
theorem align_band_grid_by_construction
    (resample : RasterBand → GeoGrid → List ℚ) (src : RasterBand)
    (g2 : GeoGrid) (tb : ℕ → Bounds → Bounds) :
    (align_band_to_reference resample src g2).grid = g2 ∧
    check_alignment (get_info tb)
      [g2, (align_band_to_reference resample src g2).grid] = true := by
  refine ⟨rfl, ?_⟩
  unfold check_alignment
  rw [if_neg (by simp [List.length_cons])]
  simp [align_band_to_reference]

theorem dictGet_map_keyfix {β : Type} (key : String)
    (f : String × β → String × β) (hkey : ∀ p, (f p).1 = p.1)
    (hfix : ∀ p, p.1 = key → f p = p) (l : List (String × β)) :
    dictGet key (l.map f) = dictGet key l := by
  induction l with
  | nil => rfl
  | cons p t ih =>
    simp only [List.map_cons, dictGet]
    rw [hkey p]
    by_cases h : p.1 = key
    · rw [if_pos h, if_pos h, hfix p h]
    · rw [if_neg h, if_neg h, ih]

/-- C4: the reference band passes through scene alignment bit-identical
— the source copies it as-is (`dst.write(src.read())`) instead of
resampling it, so for every resampling kernel whatsoever the aligned
scene maps the reference label to exactly the input band (same grid,
same samples). -/
theorem align_scene_reference_bit_identical
    (resample : RasterBand → GeoGrid → List ℚ)
    (scene_bands : List (String × RasterBand)) (ref : String)
    (b : RasterBand) (h : dictGet ref scene_bands = some b) :
    ∃ out, align_scene resample scene_bands ref = some out ∧
      dictGet ref out = some b := by
  unfold align_scene
  rw [h]
  refine ⟨_, rfl, ?_⟩
  rw [dictGet_map_keyfix]
  · exact h
  · intro p
    by_cases hp : p.1 = ref
    · rw [if_pos hp]
    · rw [if_neg hp]
  · intro p hp
    rw [if_pos hp]

/-- Witness for C4: in a two-band demo scene, aligning with a
resampling kernel that zeroes everything still returns the B4
reference band untouched. -/
theorem align_scene_reference_bit_identical_witness :
    ∃ out, align_scene (fun _ _ => []) demoScene "B4" = some out ∧
      dictGet "B4" out = some redGood :=
  align_scene_reference_bit_identical (fun _ _ => []) demoScene "B4" redGood
    (by decide)

theorem align_all_scenes_report {σ α ε : Type}
    (alignOne : String × σ → Except ε α) (scenes : List (String × σ)) :
    (align_all_scenes alignOne scenes).2 =
      scenes.map fun p => (p.1, (alignOne p).isOk) := by
  induction scenes with
  | nil => rfl
  | cons p t ih =>
    simp only [align_all_scenes, List.map_cons]
    cases halign : alignOne p with
    | ok r => simp [halign, ih, Except.isOk, Except.toBool]
    | error e => simp [halign, ih, Except.isOk, Except.toBool]

theorem align_all_scenes_successes {σ α ε : Type}
    (alignOne : String × σ → Except ε α) (scenes : List (String × σ)) :
    (align_all_scenes alignOne scenes).1 =
      scenes.filterMap fun p => (alignOne p).toOption.map fun r => (p.1, r) := by
  induction scenes with
  | nil => rfl
  | cons p t ih =>
    simp only [align_all_scenes, List.filterMap_cons]
    cases halign : alignOne p with
    | ok r => simp [halign, ih, Except.toOption]
    | error e => simp [halign, ih, Except.toOption]

/-- C8: batch alignment has scene-granular partial-failure semantics:
every scene is attempted exactly once and reported exactly once, in
order, as success or failure (no retry, no silent drop); a scene whose
processing fails contributes nothing to the result, and all other
scenes' results are exactly those of their own single processing —
failures never abort the remainder of the batch. -/
theorem align_all_scenes_scene_local {σ α ε : Type}
    (alignOne : String × σ → Except ε α) (scenes : List (String × σ)) :
    (align_all_scenes alignOne scenes).2.map Prod.fst =
        scenes.map Prod.fst ∧
    (align_all_scenes alignOne scenes).2 =
        (scenes.map fun p => (p.1, (alignOne p).isOk)) ∧
    (align_all_scenes alignOne scenes).1 =
        scenes.filterMap fun p => (alignOne p).toOption.map fun r => (p.1, r) :=
  ⟨by rw [align_all_scenes_report]; simp [Function.comp],
   align_all_scenes_report alignOne scenes,
   align_all_scenes_successes alignOne scenes⟩

/-- C9: every scene the discovery pass produces is keyed by a file
matching `*_SR_B4.TIF` and its band dict starts with, and therefore
contains, the default reference band `B4`; a B5 file without a B4
counterpart never forms a scene. -/
theorem find_scenes_contains_reference (files : List (List Char))
    (s : List Char) (bands : List (String × List Char))
    (h : (s, bands) ∈ find_scenes files) :
    (dictGet "B4" bands).isSome = true ∧
    ∃ f, f ∈ files ∧ strEndsWith f patSRB4 = true ∧
      s = replaceAll patSRB4 [] f ∧ dictGet "B4" bands = some f := by
  unfold find_scenes at h
  obtain ⟨f, hf, heq⟩ := List.mem_map.mp h
  obtain ⟨hmem, hsuf⟩ := List.mem_filter.mp hf
  rw [Prod.mk.injEq] at heq
  obtain ⟨hs, hb⟩ := heq
  subst hs
  subst hb
  refine ⟨?_, f, hmem, hsuf, rfl, ?_⟩
  · simp [dictGet]
  · simp [dictGet]

/-- Witness for C9: a directory holding one scene's B4 and B5 files
yields a scene whose band dict maps `B4` to the B4 file. -/
theorem find_scenes_contains_reference_witness :
    (dictGet "B4" demoBands).isSome = true ∧
    ∃ f, f ∈ demoFiles ∧ strEndsWith f patSRB4 = true ∧
      "LC1".toList = replaceAll patSRB4 [] f ∧
      dictGet "B4" demoBands = some f :=
  find_scenes_contains_reference demoFiles "LC1".toList demoBands
    (by simp +decide [find_scenes, demoFiles, demoBands, replaceAll,
      strEndsWith, patSRB4, patB4, patB5])
